import Mathlib

/-!
Verification of the agent-bench task-execution pipeline.

This file gives a shallow embedding of the Python sources under
`src/agent_bench/` (task model, evaluator, agent adapters, runner) and proves
or refutes the specification's claims about them.

Modelling conventions:
* Pure record types (`Task`, `AgentResult`, `BenchmarkResult`, `SuiteResults`,
  `VerificationResult`) are Lean structures mirroring the Python classes field
  by field.  Wall-clock timestamps (used only in output filenames) and the
  file-saving methods are not modelled, since no claim touches them.
* Python floats (`duration_secs`, `pass_rate`) are modelled as rationals; no
  claim depends on floating-point rounding.
* Subprocess execution is modelled by an oracle: a `ProcBehavior` describes
  how the spawned process would behave (its wall-clock running time, exit code
  and captured streams, or a spawn failure).  `asyncio.wait_for(...)` over a
  process is `runWithTimeout`, a bare `communicate()` is `runNoTimeout`.
* Python exceptions become `Except` errors; an exception escaping a function
  is an `Except.error` value of `BenchError`.
-/

namespace AgentBench

/-! ## Task model (`task.py`) -/

/-- `TaskCategory` enum from `task.py`. -/
inductive TaskCategory where
  | BUG_FIX | FEATURE | REFACTOR | TOOLS
deriving DecidableEq

/-- `Difficulty` enum from `task.py`. -/
inductive Difficulty where
  | EASY | MEDIUM | HARD
deriving DecidableEq

/-- `SourceConfig` from `task.py`. -/
structure SourceConfig where
  repository : String
  commit : String
deriving DecidableEq

/-- `VerificationConfig` from `task.py`; `timeout` defaults to 60 seconds. -/
structure VerificationConfig where
  type : String
  command : String
  timeout : Nat := 60
deriving DecidableEq

/-- `PermissionsConfig` from `task.py`, with the Python defaults. -/
structure PermissionsConfig where
  mode : Option String := none
  write : Bool := false
  read : Bool := true
  bash : Bool := false
  web_fetch : Bool := false
deriving DecidableEq

/-- `TaskMetadata` from `task.py` (the free-form `extra` dict is not modelled;
no claim touches it). -/
structure TaskMetadata where
  tags : List String := []
deriving DecidableEq

/-- `Task` from `task.py`. -/
structure Task where
  id : String
  title : String
  category : TaskCategory
  difficulty : Difficulty
  source : SourceConfig
  prompt : String
  verification : VerificationConfig
  permissions : PermissionsConfig := {}
  metadata : TaskMetadata := {}
deriving DecidableEq

/-! ## Errors (`error.py`) and Python runtime errors -/

/-- The repository's `BenchError` hierarchy (`error.py`), together with the
Python built-in exceptions that can escape the modelled code:
`valueError` for `ValueError` raised by `shlex.split`, and `typeError` for
`TypeError` raised by a call with unexpected keyword arguments. -/
inductive BenchError where
  | verificationError (msg : String)
  | agentError (msg : String)
  | gitError (msg : String)
  | valueError (msg : String)
  | typeError (msg : String)
deriving DecidableEq

/-! ## Agent result (`agents/base.py`) -/

/-- `AgentResult` dataclass from `agents/base.py`. -/
structure AgentResult where
  success : Bool
  output : String
  iterations : Nat
  tokens_used : Option Nat := none
  agent_version : Option String := none
  model_name : Option String := none
deriving DecidableEq

/-! ## Subprocess oracle -/

/-- How a spawned subprocess would behave: it either runs for `wallSecs`
seconds of wall-clock time and then exits with `exitCode`, producing the given
streams, or spawning it fails with an OS-level exception. -/
inductive ProcBehavior where
  | runs (wallSecs : Nat) (exitCode : Int) (stdout stderr : String)
  | crashes (msg : String)
deriving DecidableEq

/-- Observable outcome of awaiting a subprocess from the harness. -/
inductive ProcOutcome where
  | completed (exitCode : Int) (stdout stderr : String)
  | timedOut
  | spawnError (msg : String)
deriving DecidableEq

/-- `await asyncio.wait_for(process.communicate(), timeout=timeout)`:
the wait times out exactly when the process needs more wall-clock time than
the deadline allows. -/
def runWithTimeout (timeout : Nat) (b : ProcBehavior) : ProcOutcome :=
  match b with
  | .runs t code out err => if timeout < t then .timedOut else .completed code out err
  | .crashes m => .spawnError m

/-- `await process.communicate()` with no surrounding `wait_for`: the harness
waits however long the process takes. -/
def runNoTimeout (b : ProcBehavior) : ProcOutcome :=
  match b with
  | .runs _ code out err => .completed code out err
  | .crashes m => .spawnError m

/-! ## Benchmark results (`evaluator.py`) -/

/-- `VerificationResult` from `evaluator.py`. -/
structure VerificationResult where
  passed : Bool
  exit_code : Option Int
  stdout : String
  stderr : String
  duration_secs : ℚ
deriving DecidableEq

/-- `BenchmarkResult` pydantic model from `evaluator.py`.  The `timestamp`
field (creation time, used only in the output filename) is not modelled. -/
structure BenchmarkResult where
  task_id : String
  agent : String
  success : Bool
  score : Int
  iterations : Nat
  tokens_used : Option Nat := none
  duration_secs : ℚ
  verification_output : Option String := none
  agent_output : Option String := none
  error : Option String := none
deriving DecidableEq

/-- `BenchmarkResult.create_success` from `evaluator.py`. -/
def BenchmarkResult.create_success (task_id agent : String) (iterations : Nat)
    (tokens_used : Option Nat) (duration_secs : ℚ) : BenchmarkResult :=
  { task_id := task_id
    agent := agent
    success := true
    score := 100
    iterations := iterations
    tokens_used := tokens_used
    duration_secs := duration_secs }

/-- `BenchmarkResult.create_failure` from `evaluator.py`. -/
def BenchmarkResult.create_failure (task_id agent : String) (iterations : Nat)
    (tokens_used : Option Nat) (duration_secs : ℚ) (error : String) :
    BenchmarkResult :=
  { task_id := task_id
    agent := agent
    success := false
    score := 0
    iterations := iterations
    tokens_used := tokens_used
    duration_secs := duration_secs
    error := some error }

/-- `SuiteResults` pydantic model from `evaluator.py` (again without the
unmodelled `timestamp`). -/
structure SuiteResults where
  agent : String
  results : List BenchmarkResult
  total_tasks : Nat
  passed : Nat
  failed : Nat
  pass_rate : ℚ
  total_duration_secs : ℚ
deriving DecidableEq

/-- `SuiteResults.from_results` from `evaluator.py`:
`passed` counts the successful results, `failed = total_tasks - passed`,
`pass_rate = passed / total_tasks` guarded against division by zero, and
`total_duration_secs` sums the durations. -/
def SuiteResults.from_results (agent : String) (results : List BenchmarkResult) :
    SuiteResults :=
  let total_tasks := results.length
  let passed := (results.filter (fun r => r.success)).length
  let failed := total_tasks - passed
  let pass_rate : ℚ :=
    if total_tasks > 0 then (passed : ℚ) / (total_tasks : ℚ) else 0
  let total_duration_secs := (results.map (fun r => r.duration_secs)).sum
  { agent := agent
    results := results
    total_tasks := total_tasks
    passed := passed
    failed := failed
    pass_rate := pass_rate
    total_duration_secs := total_duration_secs }

/-! ## Claims C9 and C5 -/

/-- Claim C9: every `BenchmarkResult` built by `create_success` or
`create_failure` has score 100 or 0, and score 100 exactly when the success
flag is set: `create_success` always yields `success = true, score = 100`
and `create_failure` always yields `success = false, score = 0`. -/
theorem C9_score_matches_success (tid ag : String) (it : Nat)
    (tk : Option Nat) (d : ℚ) (e : String) :
    (BenchmarkResult.create_success tid ag it tk d).score = 100 ∧
    (BenchmarkResult.create_success tid ag it tk d).success = true ∧
    (BenchmarkResult.create_failure tid ag it tk d e).score = 0 ∧
    (BenchmarkResult.create_failure tid ag it tk d e).success = false ∧
    ((BenchmarkResult.create_success tid ag it tk d).score = 100 ∨
      (BenchmarkResult.create_success tid ag it tk d).score = 0) ∧
    ((BenchmarkResult.create_failure tid ag it tk d e).score = 100 ∨
      (BenchmarkResult.create_failure tid ag it tk d e).score = 0) ∧
    ((BenchmarkResult.create_success tid ag it tk d).score = 100 ↔
      (BenchmarkResult.create_success tid ag it tk d).success = true) ∧
    ((BenchmarkResult.create_failure tid ag it tk d e).score = 100 ↔
      (BenchmarkResult.create_failure tid ag it tk d e).success = true) := by
  refine ⟨rfl, rfl, rfl, rfl, Or.inl rfl, Or.inr rfl, ?_, ?_⟩
  · simp [BenchmarkResult.create_success]
  · simp [BenchmarkResult.create_failure]

/-- Claim C5: `SuiteResults.from_results` satisfies
`passed + failed = total_tasks`, `pass_rate = passed / total_tasks`
(`0` when `total_tasks = 0`), and `total_duration_secs` is the sum of the
results' `duration_secs`. -/
theorem C5_from_results_aggregates (agent : String)
    (results : List BenchmarkResult) :
    (SuiteResults.from_results agent results).passed +
        (SuiteResults.from_results agent results).failed =
      (SuiteResults.from_results agent results).total_tasks ∧
    ((SuiteResults.from_results agent results).total_tasks = 0 →
      (SuiteResults.from_results agent results).pass_rate = 0) ∧
    ((SuiteResults.from_results agent results).total_tasks ≠ 0 →
      (SuiteResults.from_results agent results).pass_rate =
        ((SuiteResults.from_results agent results).passed : ℚ) /
          ((SuiteResults.from_results agent results).total_tasks : ℚ)) ∧
    (SuiteResults.from_results agent results).total_duration_secs =
      (results.map (fun r => r.duration_secs)).sum := by
  refine ⟨?_, ?_, ?_, rfl⟩
  · have hle : (results.filter (fun r => r.success)).length ≤ results.length :=
      List.length_filter_le _ _
    simp only [SuiteResults.from_results]
    omega
  · intro h
    simp only [SuiteResults.from_results] at h ⊢
    simp [h]
  · intro h
    simp only [SuiteResults.from_results] at h ⊢
    simp [Nat.pos_of_ne_zero h]

/-- Sample results used to instantiate C5's conditional clauses. -/
def demoResults : List BenchmarkResult :=
  [BenchmarkResult.create_success "t-ok" "demo" 1 none 2,
   BenchmarkResult.create_failure "t-bad" "demo" 1 none 3 "boom"]

/-- Witness for C5 on a concrete two-element result list. -/
theorem C5_from_results_witness :
    (SuiteResults.from_results "demo" demoResults).passed +
        (SuiteResults.from_results "demo" demoResults).failed =
      (SuiteResults.from_results "demo" demoResults).total_tasks ∧
    (SuiteResults.from_results "demo" demoResults).pass_rate =
      ((SuiteResults.from_results "demo" demoResults).passed : ℚ) /
        ((SuiteResults.from_results "demo" demoResults).total_tasks : ℚ) :=
  ⟨(C5_from_results_aggregates "demo" demoResults).1,
   (C5_from_results_aggregates "demo" demoResults).2.2.1 (by decide)⟩

/-! ## `shlex.split` (Python stdlib, as called by `Verifier.verify`)

`evaluator.py` tokenizes the verification command with `shlex.split`, i.e.
`shlex` in POSIX mode with `whitespace_split=True`.  The state machine below
mirrors `Lib/shlex.py`: whitespace separates tokens, single quotes are
literal, double quotes allow backslash-escaping of `\` and `"`, a backslash
outside quotes escapes the next character, and a token is emitted when it is
non-empty or when any part of it was quoted (so `""` is an empty token).
`shlex.split` raises `ValueError` on an unclosed quote or a trailing escape
character; that is modelled as `none`. -/

/-- The characters of `shlex.whitespace`. -/
def shlexWs (c : Char) : Bool :=
  c = ' ' || c = '\t' || c = '\r' || c = '\n'

/-- Lexer state: between tokens, inside a word, inside single or double
quotes, or after an escape character (from a word or from double quotes). -/
inductive ShState where
  | start | word | squote | dquote | escNorm | escDq
deriving DecidableEq

/-- One step per input character; `tok` is the token built so far, `quoted`
records whether any part of it came from a quoted section, `acc` collects the
emitted tokens in reverse. -/
def shlexAux : List Char → ShState → String → Bool → List String →
    Option (List String)
  | [], .start, _tok, _quoted, acc => some acc.reverse
  | [], .word, tok, quoted, acc =>
      if tok ≠ "" || quoted then some (tok :: acc).reverse else some acc.reverse
  | [], .squote, _, _, _ => none
  | [], .dquote, _, _, _ => none
  | [], .escNorm, _, _, _ => none
  | [], .escDq, _, _, _ => none
  | c :: cs, .start, tok, quoted, acc =>
      if shlexWs c then shlexAux cs .start tok quoted acc
      else if c = '\'' then shlexAux cs .squote tok true acc
      else if c = '"' then shlexAux cs .dquote tok true acc
      else if c = '\\' then shlexAux cs .escNorm tok quoted acc
      else shlexAux cs .word (tok.push c) quoted acc
  | c :: cs, .word, tok, quoted, acc =>
      if shlexWs c then
        if tok ≠ "" || quoted then shlexAux cs .start "" false (tok :: acc)
        else shlexAux cs .start tok quoted acc
      else if c = '\'' then shlexAux cs .squote tok true acc
      else if c = '"' then shlexAux cs .dquote tok true acc
      else if c = '\\' then shlexAux cs .escNorm tok quoted acc
      else shlexAux cs .word (tok.push c) quoted acc
  | c :: cs, .squote, tok, quoted, acc =>
      if c = '\'' then shlexAux cs .word tok quoted acc
      else shlexAux cs .squote (tok.push c) quoted acc
  | c :: cs, .dquote, tok, quoted, acc =>
      if c = '"' then shlexAux cs .word tok quoted acc
      else if c = '\\' then shlexAux cs .escDq tok quoted acc
      else shlexAux cs .dquote (tok.push c) quoted acc
  | c :: cs, .escNorm, tok, quoted, acc =>
      shlexAux cs .word (tok.push c) quoted acc
  | c :: cs, .escDq, tok, quoted, acc =>
      if c = '\\' || c = '"' then shlexAux cs .dquote (tok.push c) quoted acc
      else shlexAux cs .dquote ((tok.push '\\').push c) quoted acc

/-- `shlex.split(s)`; `none` models the `ValueError` raised on an unclosed
quotation or a dangling escape character. -/
def shlexSplit (s : String) : Option (List String) :=
  shlexAux s.toList .start "" false []

/-! ## Verifier (`evaluator.py`) -/

/-- `Verifier.verify` from `evaluator.py`: tokenize the command with
`shlex.split`, reject an empty token list with `VerificationError`, then run
the subprocess under `asyncio.wait_for` with the task's verification timeout.
A completed process yields a normal result with `passed = (exit_code == 0)`;
a timeout or a failure to spawn raises `VerificationError`.  The subprocess
itself is the oracle `b`; `elapsed` is the measured wall-clock duration. -/
def Verifier.verify (task : Task) (b : ProcBehavior) (elapsed : ℚ) :
    Except BenchError VerificationResult :=
  match shlexSplit task.verification.command with
  | none => .error (.valueError "shlex could not tokenize the command")
  | some [] => .error (.verificationError "Empty verification command")
  | some (_program :: _args) =>
    match runWithTimeout task.verification.timeout b with
    | .completed exit_code stdout stderr =>
        .ok { passed := exit_code == 0
              exit_code := some exit_code
              stdout := stdout
              stderr := stderr
              duration_secs := elapsed }
    | .timedOut => .error (.verificationError "Verification command timed out")
    | .spawnError _ =>
        .error (.verificationError "Failed to execute verification command")

/-! ## Claims C2 and C10 -/

/-- Claim C2: for a verification command that tokenizes to a non-empty list,
a subprocess that runs to completion within the per-task timeout yields a
normal result with `passed = (exit_code == 0)` (so a non-zero exit code is a
failed result, not an error), while a subprocess that outlives the timeout
makes `verify` raise a `VerificationError` instead of returning a result. -/
theorem C2_verify_passed_iff_exit_zero (task : Task) (prog : String)
    (args : List String)
    (h : shlexSplit task.verification.command = some (prog :: args))
    (t : Nat) (code : Int) (out err : String) (elapsed : ℚ) :
    (t ≤ task.verification.timeout →
      Verifier.verify task (.runs t code out err) elapsed =
        .ok { passed := code == 0, exit_code := some code, stdout := out,
              stderr := err, duration_secs := elapsed }) ∧
    (task.verification.timeout < t →
      Verifier.verify task (.runs t code out err) elapsed =
        .error (.verificationError "Verification command timed out")) := by
  constructor
  · intro ht
    simp [Verifier.verify, h, runWithTimeout, Nat.not_lt.mpr ht]
  · intro ht
    simp [Verifier.verify, h, runWithTimeout, ht]

/-- Sample task used by several witnesses: `fix-1`, command `true`,
repository `none`. -/
def fixOneTask : Task :=
  { id := "fix-1"
    title := "demo fix"
    category := .BUG_FIX
    difficulty := .EASY
    source := { repository := "none", commit := "main" }
    prompt := "do the thing"
    verification := { type := "command", command := "true", timeout := 60 } }

/-- Witness for C2: command `true`, subprocess exits with code 1 after one
second; `verify` returns a failed (not error) result. -/
theorem C2_verify_witness :
    Verifier.verify fixOneTask (.runs 1 1 "out" "err") 0 =
      .ok { passed := false, exit_code := some 1, stdout := "out",
            stderr := "err", duration_secs := 0 } :=
  (C2_verify_passed_iff_exit_zero fixOneTask "true" [] (by decide)
    1 1 "out" "err" 0).1 (by decide)

/-- Claim C10: if the verification command tokenizes to zero tokens (for
example an empty or all-whitespace string), `Verifier.verify` raises
`VerificationError` without consulting the subprocess at all (the result is
the same for every subprocess behaviour `b`). -/
theorem C10_empty_command_rejected (task : Task)
    (h : shlexSplit task.verification.command = some [])
    (b : ProcBehavior) (elapsed : ℚ) :
    Verifier.verify task b elapsed =
      .error (.verificationError "Empty verification command") := by
  simp [Verifier.verify, h]

/-- The `fix-1` task with an all-whitespace verification command. -/
def blankCommandTask : Task :=
  { fixOneTask with
    verification := { type := "command", command := "  ", timeout := 60 } }

/-- Witness for C10 at the all-whitespace command. -/
theorem C10_empty_command_witness :
    Verifier.verify blankCommandTask (.runs 0 0 "" "") 0 =
      .error (.verificationError "Empty verification command") :=
  C10_empty_command_rejected blankCommandTask (by decide) (.runs 0 0 "" "") 0

/-! ## Claude CLI agent (`agents/claude.py`) -/

/-- `needle` starts the character list `hay`. -/
def hasPrefixChars : List Char → List Char → Bool
  | [], _ => true
  | _ :: _, [] => false
  | n :: ns, h :: hs => n == h && hasPrefixChars ns hs

/-- `needle` occurs somewhere in the character list `hay`. -/
def hasInfixChars (needle : List Char) : List Char → Bool
  | [] => needle.isEmpty
  | c :: cs => hasPrefixChars needle (c :: cs) || hasInfixChars needle cs

/-- `needle` occurs as a substring of `hay` (Python's `needle in hay`). -/
def strContains (hay needle : String) : Bool :=
  hasInfixChars needle.toList hay.toList

/-- `claude.py`: `last_output = f"{stdout}\n\nSTDERR:\n{stderr}" if stderr
else stdout`. -/
def combineOutput (stdout stderr : String) : String :=
  if stderr ≠ "" then stdout ++ "\n\nSTDERR:\n" ++ stderr else stdout

/-- The `for i in range(self.max_iterations)` loop of `ClaudeAgent.execute`
(`claude.py` lines 90-166).  Iteration `i` spawns one `claude --continue`
subprocess — here `behaviors i`, awaited by a bare `communicate()` with no
timeout — and succeeds when the exit code is 0 and the combined output
contains the literal marker `"DONE"`; otherwise the loop continues.  Any
exception while executing the subprocess is re-raised as `AgentError`.  When
the loop exhausts the cap it returns a failure `AgentResult` carrying the last
output and the iteration count. -/
def ClaudeAgent.executeLoop (behaviors : Nat → ProcBehavior) :
    Nat → Nat → Nat → String → Except BenchError AgentResult
  | _i, 0, iterations, last_output =>
      .ok { success := false, output := last_output, iterations := iterations }
  | i, remaining + 1, iterations, _last_output =>
    match runNoTimeout (behaviors i) with
    | .completed exit_code stdout stderr =>
        let last_output := combineOutput stdout stderr
        if exit_code == 0 && strContains last_output "DONE" then
          .ok { success := true, output := last_output,
                iterations := iterations + 1 }
        else
          ClaudeAgent.executeLoop behaviors (i + 1) remaining (iterations + 1)
            last_output
    | .timedOut =>
        .error (.agentError "Failed to execute claude CLI")
    | .spawnError _ =>
        .error (.agentError "Failed to execute claude CLI")

/-- `ClaudeAgent.execute` from `claude.py`.  With `max_iterations = 1` it
takes the single-shot branch (lines 31-87): one `claude -p` subprocess under
`asyncio.wait_for(..., timeout=300)`, returning
`success = (exit_code == 0)`; `asyncio.TimeoutError` is re-raised as
`AgentError`, as is any other exception.  Otherwise it runs the multi-turn
loop. -/
def ClaudeAgent.execute (max_iterations : Nat) (_task : Task)
    (behaviors : Nat → ProcBehavior) : Except BenchError AgentResult :=
  if max_iterations = 1 then
    match runWithTimeout 300 (behaviors 0) with
    | .completed exit_code stdout stderr =>
        .ok { success := exit_code == 0, output := combineOutput stdout stderr,
              iterations := 1 }
    | .timedOut =>
        .error (.agentError "Claude CLI command timed out after 300 seconds")
    | .spawnError _ =>
        .error (.agentError "Failed to execute claude CLI")
  else
    ClaudeAgent.executeLoop behaviors 0 max_iterations 0 ""

/-- A subprocess run that completes but whose combined output does not
contain the completion marker `"DONE"`. -/
def noMarkerRun : ProcBehavior → Bool
  | .runs _ _ stdout stderr => !(strContains (combineOutput stdout stderr) "DONE")
  | .crashes _ => false

/-- If every iteration's subprocess completes without emitting the marker,
the multi-turn loop runs to its cap and fails closed. -/
theorem executeLoop_exhausts_cap (behaviors : Nat → ProcBehavior)
    (r : Nat) : ∀ (i iterations : Nat) (last_output : String),
    (∀ j, j < r → noMarkerRun (behaviors (i + j)) = true) →
    ∃ out, ClaudeAgent.executeLoop behaviors i r iterations last_output =
      .ok { success := false, output := out, iterations := iterations + r } := by
  induction r with
  | zero => exact fun i iterations last_output _ => ⟨last_output, rfl⟩
  | succ r ih =>
    intro i iterations last_output h
    have h0 : noMarkerRun (behaviors i) = true := by
      simpa using h 0 (Nat.succ_pos r)
    cases hb : behaviors i with
    | crashes m => rw [hb] at h0; simp [noMarkerRun] at h0
    | runs t code stdout stderr =>
      rw [hb] at h0
      have hm : strContains (combineOutput stdout stderr) "DONE" = false := by
        simpa [noMarkerRun] using h0
      have step : ClaudeAgent.executeLoop behaviors i (r + 1) iterations
            last_output =
          ClaudeAgent.executeLoop behaviors (i + 1) r (iterations + 1)
            (combineOutput stdout stderr) := by
        simp [ClaudeAgent.executeLoop, runNoTimeout, hb, hm]
      obtain ⟨out, hout⟩ := ih (i + 1) (iterations + 1)
        (combineOutput stdout stderr)
        (fun j hj => by
          have := h (j + 1) (Nat.succ_lt_succ hj)
          rwa [show i + (j + 1) = i + 1 + j by omega] at this)
      refine ⟨out, ?_⟩
      rw [step, hout]
      have : iterations + 1 + r = iterations + (r + 1) := by omega
      rw [this]

/-- Claim C3, amended: for every iteration cap `N ≥ 2` (so that
`ClaudeAgent.execute` takes the multi-turn branch), if every iteration's
subprocess completes without the completion marker `"DONE"` in its combined
output, the agent fails closed: it returns (rather than raises) an
`AgentResult` with `success = false` and `iterations = N`. -/
theorem C3_multiturn_cap_exhausted (task : Task) (N : Nat) (hN : 2 ≤ N)
    (behaviors : Nat → ProcBehavior)
    (h : ∀ j, j < N → noMarkerRun (behaviors j) = true) :
    ∃ out, ClaudeAgent.execute N task behaviors =
      .ok { success := false, output := out, iterations := N } := by
  have hne : N ≠ 1 := by omega
  have := executeLoop_exhausts_cap behaviors N 0 0 ""
    (fun j hj => by simpa using h j hj)
  simpa [ClaudeAgent.execute, hne] using this

/-- A subprocess that always exits 0 immediately with output `"hello"`
(which does not contain the marker `"DONE"`). -/
def alwaysExitZero : Nat → ProcBehavior := fun _ => .runs 0 0 "hello" ""

/-- Witness for C3 (amended) at cap 2 with marker-free subprocesses. -/
theorem C3_multiturn_witness :
    ∃ out, ClaudeAgent.execute 2 fixOneTask alwaysExitZero =
      .ok { success := false, output := out, iterations := 2 } :=
  C3_multiturn_cap_exhausted fixOneTask 2 (by decide) alwaysExitZero
    (fun j _ => rfl)

/-- Counterexample to claim C3 as stated: with iteration cap `N = 1`,
`ClaudeAgent.execute` takes the single-shot branch, which never looks for the
completion marker: a subprocess that exits 0 with output `"hello"` (marker
absent) yields `success = true`, not the claimed `success = false`. -/
theorem C3_single_cap_counterexample :
    ClaudeAgent.execute 1 fixOneTask alwaysExitZero =
      .ok { success := true, output := "hello", iterations := 1 } ∧
    strContains "hello" "DONE" = false := by
  constructor
  · rfl
  · decide

/-- Claim C6, amended: in the single-shot branch (`max_iterations = 1`) the
process is invoked once under the fixed 300-second wall-clock timeout; when
it completes within the deadline the returned `AgentResult` has
`success = (exit_code == 0)` — so exit code 0 is necessary AND sufficient for
success — and when it outlives the deadline `execute` raises `AgentError`
rather than returning a result. -/
theorem C6_single_shot_exit_code (task : Task)
    (behaviors : Nat → ProcBehavior) (t : Nat) (code : Int)
    (stdout stderr : String)
    (h : behaviors 0 = .runs t code stdout stderr) :
    (t ≤ 300 → ClaudeAgent.execute 1 task behaviors =
      .ok { success := code == 0, output := combineOutput stdout stderr,
            iterations := 1 }) ∧
    (300 < t → ClaudeAgent.execute 1 task behaviors =
      .error (.agentError "Claude CLI command timed out after 300 seconds")) := by
  constructor
  · intro ht
    simp [ClaudeAgent.execute, runWithTimeout, h, Nat.not_lt.mpr ht]
  · intro ht
    simp [ClaudeAgent.execute, runWithTimeout, h, ht]

/-- Witness for C6 (amended): a one-second run exiting 0 yields success. -/
theorem C6_single_shot_witness :
    ClaudeAgent.execute 1 fixOneTask alwaysExitZero =
      .ok { success := true, output := "hello", iterations := 1 } :=
  (C6_single_shot_exit_code fixOneTask alwaysExitZero 0 0 "hello" "" rfl).1
    (by decide)

/-- A single-shot subprocess that exits 0 while printing nothing that marks
completion of the benchmark task. -/
def exitZeroNoOutput : Nat → ProcBehavior := fun _ => .runs 0 0 "" ""

/-- Counterexample to claim C6 as stated: exit code 0 alone already forces
`success = true` in the single-shot branch (here with entirely empty output),
so exit code 0 is sufficient, contradicting "necessary but not sufficient". -/
theorem C6_exit_zero_sufficient_counterexample :
    ClaudeAgent.execute 1 fixOneTask exitZeroNoOutput =
      .ok { success := true, output := "", iterations := 1 } := by
  rfl

/-! ## Permission translation (`agents/claude.py`, `agents/claude_sdk.py`) -/

/-- The allowed-tools list built inside `ClaudeAgent._apply_permissions`
(`claude.py` lines 179-193): read maps to Read/Glob/Grep, write to
Write/Edit, bash to Bash, web_fetch to WebFetch/WebSearch. -/
def cliAllowedTools (task : Task) : List String :=
  let perms := task.permissions
  (if perms.read then ["Read", "Glob", "Grep"] else []) ++
    (if perms.write then ["Write", "Edit"] else []) ++
    (if perms.bash then ["Bash"] else []) ++
    (if perms.web_fetch then ["WebFetch", "WebSearch"] else [])

/-- `ClaudeAgent._apply_permissions` from `claude.py`: extend `cmd` with
`--permission-mode <mode>` when the task names a (non-empty) mode, else with
`--permission-mode dontAsk` when any of write/bash/web_fetch is granted, else
with no mode flag; then append `--allowedTools` with the comma-joined tools
list when it is non-empty. -/
def ClaudeAgent.applyPermissions (cmd : List String) (task : Task) :
    List String :=
  let perms := task.permissions
  let cmd1 :=
    match perms.mode with
    | some m =>
        if m ≠ "" then cmd ++ ["--permission-mode", m]
        else if perms.write || perms.bash || perms.web_fetch then
          cmd ++ ["--permission-mode", "dontAsk"]
        else cmd
    | none =>
        if perms.write || perms.bash || perms.web_fetch then
          cmd ++ ["--permission-mode", "dontAsk"]
        else cmd
  let allowed_tools := cliAllowedTools task
  if allowed_tools ≠ [] then
    cmd1 ++ ["--allowedTools", String.intercalate "," allowed_tools]
  else cmd1

/-- `ClaudeSDKAgent._build_allowed_tools` from `claude_sdk.py`: same mapping,
except the web tools are also enabled by the agent's own
`enable_web_search` switch. -/
def ClaudeSDKAgent.buildAllowedTools (enable_web_search : Bool) (task : Task) :
    List String :=
  let perms := task.permissions
  (if perms.read then ["Read", "Glob", "Grep"] else []) ++
    (if perms.write then ["Write", "Edit"] else []) ++
    (if perms.bash then ["Bash"] else []) ++
    (if perms.web_fetch || enable_web_search then ["WebFetch", "WebSearch"]
     else [])

/-- The `ClaudeAgentOptions` record built in `ClaudeSDKAgent.execute`
(`claude_sdk.py` lines 63-74); only the fields relevant to the claims are
modelled. -/
structure ClaudeAgentOptions where
  allowed_tools : List String
  permission_mode : String
  max_turns : Nat
deriving DecidableEq

/-- `ClaudeSDKAgent.execute` always constructs its options with
`permission_mode="bypassPermissions"` ("Auto-approve for benchmarking"),
independent of the task's permission flags. -/
def ClaudeSDKAgent.buildOptions (enable_web_search : Bool)
    (max_iterations : Nat) (task : Task) : ClaudeAgentOptions :=
  { allowed_tools := ClaudeSDKAgent.buildAllowedTools enable_web_search task
    permission_mode := "bypassPermissions"
    max_turns := max_iterations }

/-- A read-only task: default permissions (read only, no mode). -/
def readOnlyTask : Task :=
  { fixOneTask with permissions := {} }

/-- Counterexample to claim C4 as stated: the SDK adapter runs the read-only
task (no elevated permission, no named mode) with permission mode
`bypassPermissions`, i.e. full auto-approval rather than the most restrictive
mode, so "auto-approve iff some elevated permission is granted" fails. -/
theorem C4_sdk_bypass_counterexample :
    (ClaudeSDKAgent.buildOptions false 20 readOnlyTask).permission_mode =
        "bypassPermissions" ∧
    readOnlyTask.permissions.write = false ∧
    readOnlyTask.permissions.bash = false ∧
    readOnlyTask.permissions.web_fetch = false ∧
    readOnlyTask.permissions.mode = none := by
  refine ⟨rfl, rfl, rfl, rfl, rfl⟩

/-- Claim C4, amended: both adapters translate the permission flags into the
tool allowlist as specified (read to Read/Glob/Grep, write to Write/Edit,
bash to Bash, web_fetch to WebFetch/WebSearch, the SDK adapter additionally
enabling the web tools via its `enable_web_search` switch); the CLI adapter,
when the task names no permission mode, passes `--permission-mode dontAsk`
exactly when some elevated permission (write, bash or web_fetch) is granted
and otherwise passes no permission-mode flag at all (the CLI default, its
most restrictive behaviour); the SDK adapter instead always sets
`permission_mode = "bypassPermissions"`. -/
theorem C4_permission_translation (task : Task) (ws : Bool) (mi : Nat) :
    ((task.permissions.mode = none →
        (("dontAsk" ∈ ClaudeAgent.applyPermissions ["claude"] task) ↔
          (task.permissions.write || task.permissions.bash ||
            task.permissions.web_fetch) = true)) ∧
      (task.permissions.mode = none →
        (("--permission-mode" ∈ ClaudeAgent.applyPermissions ["claude"] task) ↔
          (task.permissions.write || task.permissions.bash ||
            task.permissions.web_fetch) = true))) ∧
    (("Read" ∈ cliAllowedTools task ↔ task.permissions.read = true) ∧
      ("Glob" ∈ cliAllowedTools task ↔ task.permissions.read = true) ∧
      ("Grep" ∈ cliAllowedTools task ↔ task.permissions.read = true) ∧
      ("Write" ∈ cliAllowedTools task ↔ task.permissions.write = true) ∧
      ("Edit" ∈ cliAllowedTools task ↔ task.permissions.write = true) ∧
      ("Bash" ∈ cliAllowedTools task ↔ task.permissions.bash = true) ∧
      ("WebFetch" ∈ cliAllowedTools task ↔ task.permissions.web_fetch = true) ∧
      ("WebSearch" ∈ cliAllowedTools task ↔
        task.permissions.web_fetch = true)) ∧
    (("Read" ∈ ClaudeSDKAgent.buildAllowedTools ws task ↔
        task.permissions.read = true) ∧
      ("Write" ∈ ClaudeSDKAgent.buildAllowedTools ws task ↔
        task.permissions.write = true) ∧
      ("Edit" ∈ ClaudeSDKAgent.buildAllowedTools ws task ↔
        task.permissions.write = true) ∧
      ("Bash" ∈ ClaudeSDKAgent.buildAllowedTools ws task ↔
        task.permissions.bash = true) ∧
      ("WebFetch" ∈ ClaudeSDKAgent.buildAllowedTools ws task ↔
        (task.permissions.web_fetch || ws) = true) ∧
      ("WebSearch" ∈ ClaudeSDKAgent.buildAllowedTools ws task ↔
        (task.permissions.web_fetch || ws) = true)) ∧
    (ClaudeSDKAgent.buildOptions ws mi task).permission_mode =
      "bypassPermissions" := by
  obtain ⟨tid, ttl, cat, dif, src, pr, ver, perms, meta⟩ := task
  obtain ⟨mode, w, r, b, wf⟩ := perms
  cases mode <;> cases w <;> cases r <;> cases b <;> cases wf <;> cases ws <;>
    refine ⟨⟨fun h => ?_, fun h => ?_⟩, ?_, ?_, rfl⟩
  all_goals
    try simp_all [ClaudeAgent.applyPermissions, cliAllowedTools,
      ClaudeSDKAgent.buildAllowedTools]
  all_goals decide

/-- A task granting write permission with no named mode. -/
def writeTask : Task :=
  { fixOneTask with
    permissions := { mode := none, write := true, read := true,
                     bash := false, web_fetch := false } }

/-- Witness for C4 (amended): with write granted and no named mode, the CLI
adapter passes `--permission-mode dontAsk`. -/
theorem C4_permission_witness :
    ("dontAsk" ∈ ClaudeAgent.applyPermissions ["claude"] writeTask) ∧
    ("--permission-mode" ∈ ClaudeAgent.applyPermissions ["claude"] writeTask) :=
  ⟨((C4_permission_translation writeTask false 20).1.1 rfl).mpr (by decide),
   ((C4_permission_translation writeTask false 20).1.2 rfl).mpr (by decide)⟩

/-! ## Workspace preparation (`runner.py`) -/

/-- The workspace root as seen by `TaskRunner`: for each task id, the
contents of `workspace_dir / task_id` (`none` when that directory does not
exist, `some files` when it exists with the given files). -/
abbrev FS := String → Option (List String)

/-- The clone oracle: what `TaskRunner._clone_repo` would put into the
workspace for a repository URL and commit, or the `GitError` it would
raise. -/
abbrev CloneFn := String → String → Except BenchError (List String)

/-- `TaskRunner._prepare_workspace` from `runner.py`: the task's workspace
directory is `workspace_dir / task.id`; if it exists it is removed with
`shutil.rmtree`; then the repository is cloned into it unless
`task.source.repository` is `"none"` or empty, in which case an empty
directory is created.  Returns the updated filesystem and the workspace
path (identified here by the task id). -/
def prepareWorkspace (clone : CloneFn) (fs : FS) (task : Task) :
    Except BenchError (FS × String) :=
  let fs1 : FS := fun k => if k = task.id then none else fs k
  if task.source.repository ≠ "none" ∧ task.source.repository ≠ "" then
    match clone task.source.repository task.source.commit with
    | .ok files => .ok (fun k => if k = task.id then some files else fs1 k,
        task.id)
    | .error e => .error e
  else
    .ok (fun k => if k = task.id then some [] else fs1 k, task.id)

/-- Claim C7: for a task whose `source.repository` is `"none"`, workspace
preparation never invokes the clone logic (the result is identical for any
two clone oracles) and succeeds with an empty workspace directory for the
task. -/
theorem C7_none_repository_no_clone (cloneA cloneB : CloneFn) (fs : FS)
    (task : Task) (h : task.source.repository = "none") :
    prepareWorkspace cloneA fs task = prepareWorkspace cloneB fs task ∧
    ∃ fs2, prepareWorkspace cloneA fs task = .ok (fs2, task.id) ∧
      fs2 task.id = some [] := by
  have hcond : ¬(task.source.repository ≠ "none" ∧
      task.source.repository ≠ "") := by
    simp [h]
  constructor
  · simp [prepareWorkspace, hcond]
  · refine ⟨fun k => if k = task.id then some []
      else if k = task.id then none else fs k, ?_, ?_⟩
    · simp [prepareWorkspace, hcond]
    · simp

/-- A clone oracle that would fail loudly if it were ever consulted. -/
def failingClone : CloneFn := fun _ _ => .error (.gitError "must not be called")

/-- A clone oracle that would produce a repository checkout. -/
def producingClone : CloneFn := fun _ _ => .ok ["repo-file.txt"]

/-- Witness for C7 on the concrete `fix-1` task (repository `"none"`) with
an empty workspace root: a failing and a succeeding clone oracle give the
same outcome, and the created workspace is empty. -/
theorem C7_none_repository_witness :
    prepareWorkspace failingClone (fun _ => none) fixOneTask =
      prepareWorkspace producingClone (fun _ => none) fixOneTask ∧
    ∃ fs2, prepareWorkspace failingClone (fun _ => none) fixOneTask =
      .ok (fs2, fixOneTask.id) ∧ fs2 fixOneTask.id = some [] :=
  C7_none_repository_no_clone failingClone producingClone (fun _ => none)
    fixOneTask rfl

/-- Claim C8: a stale workspace directory for the task's id is deleted before
the new workspace is created, so the new workspace's contents never depend on
what a prior run left behind: preparation over a filesystem where the
directory exists with contents `old` ends with the task's workspace in
exactly the state it would have starting from an empty filesystem. -/
theorem C8_stale_workspace_removed (clone : CloneFn) (fs : FS) (task : Task)
    (old : List String) (_h : fs task.id = some old) :
    (prepareWorkspace clone fs task).map (fun r => r.1 task.id) =
      (prepareWorkspace clone (fun _ => none) task).map
        (fun r => r.1 task.id) := by
  by_cases hc : task.source.repository ≠ "none" ∧ task.source.repository ≠ ""
  · cases hclone : clone task.source.repository task.source.commit with
    | ok files => simp [prepareWorkspace, hc, hclone, Except.map]
    | error e => simp [prepareWorkspace, hc, hclone, Except.map]
  · simp [prepareWorkspace, hc, Except.map]

/-- A workspace root where `fix-1` already holds a sentinel file from a
previous run. -/
def staleFS : FS := fun k =>
  if k = "fix-1" then some ["sentinel.txt"] else none

/-- Witness for C8: re-preparing `fix-1` over the stale root gives the same
workspace contents as preparing it from scratch (the sentinel is gone). -/
theorem C8_stale_workspace_witness :
    (prepareWorkspace producingClone staleFS fixOneTask).map
        (fun r => r.1 fixOneTask.id) =
      (prepareWorkspace producingClone (fun _ => none) fixOneTask).map
        (fun r => r.1 fixOneTask.id) :=
  C8_stale_workspace_removed producingClone staleFS fixOneTask
    ["sentinel.txt"] rfl

/-! ## Task runner pipeline (`runner.py`) -/

/-- `TaskRunner._execute_task` from `runner.py` (lines 79-171): prepare the
workspace, run the agent, run verification, then build a `BenchmarkResult`.
Exceptions from each stage are caught and routed to
`BenchmarkResult.create_failure`; a passing verification goes to
`BenchmarkResult.create_success`.

However, every one of the five construction sites (runner.py lines 88-97,
104-113, 120-129, 139-147 and 149-158) passes the keyword arguments
`agent_version=...` and `model_name=...`, which the `create_success` and
`create_failure` classmethods defined in `evaluator.py` (lines 102-142) do
not accept.  In Python such a call raises
`TypeError: ...() got an unexpected keyword argument ...` — inside the
`except` handlers as well — so every path of `_execute_task` raises
`TypeError` instead of returning a `BenchmarkResult`.  The model makes each
construction site return that uncaught `TypeError`.

Inputs besides the task: the clone oracle and filesystem for workspace
preparation, the agent's outcome (an `AgentResult` or the exception the agent
raised), the verification subprocess's behaviour, and the measured elapsed
time. -/
def TaskRunner.executeTask (task : Task) (clone : CloneFn) (fs : FS)
    (agentOutcome : Except BenchError AgentResult)
    (verifBehavior : ProcBehavior) (elapsed : ℚ) :
    Except BenchError BenchmarkResult :=
  match prepareWorkspace clone fs task with
  | .error _ =>
      .error (.typeError
        "create_failure() got an unexpected keyword argument agent_version")
  | .ok _ =>
    match agentOutcome with
    | .error _ =>
        .error (.typeError
          "create_failure() got an unexpected keyword argument agent_version")
    | .ok _agent_result =>
      match Verifier.verify task verifBehavior elapsed with
      | .error _ =>
          .error (.typeError
            "create_failure() got an unexpected keyword argument agent_version")
      | .ok verification =>
        if verification.passed then
          .error (.typeError
            "create_success() got an unexpected keyword argument agent_version")
        else
          .error (.typeError
            "create_failure() got an unexpected keyword argument agent_version")

/-- The stub agent's result: always successful. -/
def stubAgentSuccess : AgentResult :=
  { success := true, output := "stub", iterations := 1 }

/-- The `fix-1` task with verification command `false`. -/
def fixOneFalseTask : Task :=
  { fixOneTask with
    verification := { type := "command", command := "false", timeout := 60 } }

/-- Claim C1 (evaluating the code at the claimed inputs): running the `fix-1`
task (repository `"none"`) with a stub agent that always succeeds raises
`TypeError` from `BenchmarkResult.create_success` when the verification
command `true` exits 0, and `TypeError` from `BenchmarkResult.create_failure`
when the command `false` exits 1 — in neither case is the claimed
`BenchmarkResult` (success/score 100, or failure with error
"Verification tests failed") ever produced, because `runner.py` passes the
keyword arguments `agent_version`/`model_name` that the constructors in
`evaluator.py` do not accept. -/
theorem C1_pipeline_raises_typeerror :
    TaskRunner.executeTask fixOneTask failingClone (fun _ => none)
        (.ok stubAgentSuccess) (.runs 0 0 "" "") 1 =
      .error (.typeError
        "create_success() got an unexpected keyword argument agent_version") ∧
    TaskRunner.executeTask fixOneFalseTask failingClone (fun _ => none)
        (.ok stubAgentSuccess) (.runs 0 1 "" "") 1 =
      .error (.typeError
        "create_failure() got an unexpected keyword argument agent_version") := by
  constructor
  · rfl
  · rfl

end AgentBench
